import Mathlib

/-!
Verification of the connection-management and market-data components of the
autonomous cross-asset trading hub repository.

The embedding models `src/configfirebase_config.py` (the `FirebaseConfig`
dataclass and the `FirebaseConnection` singleton with its `initialize` and
`get_client` methods) and `src/coredata_fetcher.py` (the `ExchangeType`
enumeration).  Stateful Python methods become explicit state transformers:
each takes an environment (the outcomes of the external Firebase SDK calls:
file-existence checks, client construction, the connection-test write, the
liveness read) and the current instance state, and returns the emitted
events (document writes and log records), an `Except`-style outcome
(`.error` models a raised exception, `.ok b` a returned boolean), and the
successor state.
-/

namespace ACTH

/-- Source: dataclass `FirebaseConfig` in `src/configfirebase_config.py`
(fields `credentials_path`, `project_id`, `enable_offline_mode`). -/
structure FirebaseConfig where
  credentials_path : String
  project_id : String
  enable_offline_mode : Bool := false
deriving Repr, DecidableEq

/-- Error kinds raised by the connection manager, one per `raise` site in
`src/configfirebase_config.py`:
`missingCredentials` = `FileNotFoundError` (line 51),
`connectionFailure` = `ConnectionError` after all attempts (line 85),
`offlineModeActive` = `RuntimeError` offline (line 93),
`notInitialized` = `RuntimeError` not initialized (line 94),
`connectionLost` = `ConnectionError` lost, cannot reconnect (line 107). -/
inductive FbError
  | missingCredentials
  | connectionFailure
  | offlineModeActive
  | notInitialized
  | connectionLost
deriving Repr, DecidableEq

/-- A document write issued via `test_ref.set({...}, merge=True)` in
`FirebaseConnection.initialize` (lines 65-70): target collection and
document path, the three fields passed, and the merge flag. -/
structure TestWrite where
  collectionPath : String
  docPath : String
  tsField : Nat
  statusField : String
  attemptField : Nat
  mergeFlag : Bool
deriving Repr, DecidableEq

/-- Observable events emitted by the connection manager: the connection-test
document write and the log records, one constructor per logging call in the
source (attempt-failure error line 78, credentials error line 47, offline
warning line 49, success info line 72, critical line 81, offline-cache
warning line 83, connection-lost error line 102). -/
inductive Ev
  | write (w : TestWrite)
  | logAttemptError (attempt : Nat)
  | logCredError
  | logOfflineWarn
  | logInfoConnected
  | logCriticalAllFailed
  | logOfflineCacheWarn
  | logConnectionLost
deriving Repr, DecidableEq

/-- Whether an event is the per-attempt failure log (line 78 of the source). -/
def Ev.isAttemptErr : Ev → Bool
  | .logAttemptError _ => true
  | _ => false

/-- Whether an event is a document write. -/
def Ev.isWrite : Ev → Bool
  | .write _ => true
  | _ => false

/-- The environment: outcomes of the external calls the connection manager
makes.  `fileExists` models `os.path.exists`; `clientOk i` whether app
creation plus `firestore.client()` succeed on 0-based attempt `i`;
`writeOk i` whether the connection-test write completes on attempt `i`;
`clientId i` identifies the client handle `firestore.client()` yields on
attempt `i`; `live c` the outcome of the liveness read
`collection('system_health').limit(1).get()` on handle `c`; `now` the value
`datetime.utcnow()` returns. -/
structure Env where
  fileExists : String → Bool
  clientOk : Nat → Bool
  writeOk : Nat → Bool
  clientId : Nat → Nat
  live : Nat → Bool
  now : Nat

/-- Mutable state of the `FirebaseConnection` singleton: `_client`,
`_config`, `_connection_attempts` (lines 29, 38-39 of the source).
`_max_attempts` is the constant 3 and is kept as `maxAttempts` below. -/
structure ConnState where
  client : Option Nat
  config : Option FirebaseConfig
  connection_attempts : Nat
deriving Repr, DecidableEq

/-- `self._max_attempts = 3` (line 40 of the source). -/
def maxAttempts : Nat := 3

/-- The document write issued on attempt `i` (0-based): target
`system_health/connection_test`, fields `timestamp` = now, `status` =
"connected", `attempt` = `i + 1`, with merge semantics (lines 65-70). -/
def testWriteFor (env : Env) (i : Nat) : TestWrite :=
  { collectionPath := "system_health"
    docPath := "connection_test"
    tsField := env.now
    statusField := "connected"
    attemptField := i + 1
    mergeFlag := true }

/-- Result of one method call: emitted events in order, the outcome
(`.error e` = exception raised, `.ok b` = boolean returned), and the
successor instance state. -/
structure StepOut where
  events : List Ev
  result : Except FbError Bool
  state : ConnState
deriving Repr

/-- The retry loop of `FirebaseConnection.initialize` (lines 53-87), over
the list of remaining 0-based attempt indices.  On each attempt: if the
client is obtained (`clientOk`), `self._client` is replaced and the
connection-test write is issued; if the write also completes the attempt
succeeds (counter reset to 0, return `True`).  On any failure the counter
is incremented and the failure logged; on the final attempt the call either
returns `False` (offline mode) or raises `ConnectionError`, after a
critical log.  An exhausted list is the defensive `return False` fallback
(line 87). -/
def initLoop (env : Env) (cfg : FirebaseConfig) : List Nat → ConnState → StepOut
  | [], s => ⟨[], .ok false, s⟩
  | i :: rest, s =>
    let s1 := if env.clientOk i then { s with client := some (env.clientId i) } else s
    let pre := if env.clientOk i then [Ev.write (testWriteFor env i)] else []
    if env.clientOk i && env.writeOk i then
      ⟨pre ++ [Ev.logInfoConnected], .ok true, { s1 with connection_attempts := 0 }⟩
    else
      let s2 := { s1 with connection_attempts := s1.connection_attempts + 1 }
      if i = maxAttempts - 1 then
        if cfg.enable_offline_mode then
          ⟨pre ++ [Ev.logAttemptError (i + 1), Ev.logCriticalAllFailed,
            Ev.logOfflineCacheWarn], .ok false, s2⟩
        else
          ⟨pre ++ [Ev.logAttemptError (i + 1), Ev.logCriticalAllFailed],
            .error .connectionFailure, s2⟩
      else
        let out := initLoop env cfg rest s2
        ⟨pre ++ Ev.logAttemptError (i + 1) :: out.events, out.result, out.state⟩

/-- `FirebaseConnection.initialize` (lines 42-87 of the source): stores the
config, validates that the credentials file exists (raising
`MissingCredentials` or returning `False` under offline mode when it does
not), then runs the bounded retry loop. -/
def initializeConn (env : Env) (cfg : FirebaseConfig) (s : ConnState) : StepOut :=
  let s0 := { s with config := some cfg }
  if env.fileExists cfg.credentials_path then
    initLoop env cfg (List.range maxAttempts) s0
  else if cfg.enable_offline_mode then
    ⟨[Ev.logCredError, Ev.logOfflineWarn], .ok false, s0⟩
  else
    ⟨[Ev.logCredError], .error .missingCredentials, s0⟩

/-- Result of `get_client`: events, outcome (`.ok c` models `return`-ing the
value of `self._client`, which Python would let be `None`; `.error e` a
raised exception), and the successor state. -/
structure ClientOut where
  events : List Ev
  result : Except FbError (Option Nat)
  state : ConnState
deriving Repr

/-- `FirebaseConnection.get_client` (lines 89-107 of the source): with no
client handle, raises `OfflineModeActive` when a stored config has offline
mode enabled, else `NotInitialized`.  With a handle, performs the liveness
read; on success returns the handle; on failure logs the loss and, when a
stored config exists, re-invokes the initialization with it and returns
whatever `self._client` then holds (exceptions from it propagate); with no
stored config raises `ConnectionLost`. -/
def get_client (env : Env) (s : ConnState) : ClientOut :=
  match s.client with
  | none =>
    match s.config with
    | some cfg =>
      if cfg.enable_offline_mode then ⟨[], .error .offlineModeActive, s⟩
      else ⟨[], .error .notInitialized, s⟩
    | none => ⟨[], .error .notInitialized, s⟩
  | some c =>
    if env.live c then ⟨[], .ok (some c), s⟩
    else
      match s.config with
      | some cfg =>
        let out := initializeConn env cfg s
        match out.result with
        | .error e => ⟨Ev.logConnectionLost :: out.events, .error e, out.state⟩
        | .ok _ => ⟨Ev.logConnectionLost :: out.events, .ok out.state.client, out.state⟩
      | none => ⟨[Ev.logConnectionLost], .error .connectionLost, s⟩

/-- The process-wide Python globals backing the singleton pattern:
`FirebaseConnection._instance` (modelled as an optional identity paired
with the instance state) and a supply of fresh object identities. -/
structure PyGlobal where
  singleton : Option (Nat × ConnState)
  nextId : Nat
deriving Repr, DecidableEq

/-- One evaluation of the expression `FirebaseConnection()`: `__new__`
(lines 32-35) returns the existing instance or allocates one, after which
`__init__` (lines 37-40) runs unconditionally on it, setting `self._config
= None` and `self._connection_attempts = 0` (the class attribute `_client`
is not touched by `__init__`).  Returns the identity of the instance
obtained together with the new globals. -/
def FirebaseConnection_call (g : PyGlobal) : Nat × PyGlobal :=
  match g.singleton with
  | some (i, st) =>
    (i, { g with singleton := some (i, { st with config := none, connection_attempts := 0 }) })
  | none =>
    (g.nextId,
      { singleton := some (g.nextId, ⟨none, none, 0⟩), nextId := g.nextId + 1 })

/-- Invoking `initialize(cfg)` through an acquired handle: the singleton's
state is the one mutated (all handles alias the same instance). -/
def callInitializeConn (env : Env) (cfg : FirebaseConfig) (g : PyGlobal) : PyGlobal :=
  match g.singleton with
  | some (i, st) => { g with singleton := some (i, (initializeConn env cfg st).state) }
  | none => g

/-- The stored config observed through any handle to the singleton. -/
def observeConfig (g : PyGlobal) : Option (Option FirebaseConfig) :=
  g.singleton.map fun p => p.2.config

/-- Source: enum `ExchangeType` in `src/coredata_fetcher.py` (lines 19-25),
exactly five members. -/
inductive ExchangeType
  | BINANCE
  | COINBASE
  | KRAKEN
  | FTX
  | BYBIT
deriving Repr, DecidableEq

/-- The canonical string value of each `ExchangeType` member, as in the
source enumeration. -/
def ExchangeType.value : ExchangeType → String
  | .BINANCE => "binance"
  | .COINBASE => "coinbase"
  | .KRAKEN => "kraken"
  | .FTX => "ftx"
  | .BYBIT => "bybit"

/-- Value lookup `ExchangeType(sv)` of the Python `Enum`: the member whose
value is `sv`, if any. -/
def ExchangeType.ofValue (sv : String) : Option ExchangeType :=
  if sv = "binance" then some .BINANCE
  else if sv = "coinbase" then some .COINBASE
  else if sv = "kraken" then some .KRAKEN
  else if sv = "ftx" then some .FTX
  else if sv = "bybit" then some .BYBIT
  else none

/-! Concrete environments and configs used by witnesses and
counterexamples. -/

/-- A config with a credentials path that the environments below treat as
missing, offline mode enabled. -/
def cfgOffline : FirebaseConfig :=
  { credentials_path := "missing.json", project_id := "acth", enable_offline_mode := true }

/-- A config with offline mode disabled. -/
def cfgStrict : FirebaseConfig :=
  { credentials_path := "creds.json", project_id := "acth", enable_offline_mode := false }

/-- An environment in which no file exists, every SDK call fails and every
liveness read fails. -/
def envDown : Env :=
  { fileExists := fun _ => false, clientOk := fun _ => false, writeOk := fun _ => false,
    clientId := fun _ => 0, live := fun _ => false, now := 0 }

/-- An environment in which the credentials file exists but every
connection attempt fails. -/
def envAllFail : Env :=
  { fileExists := fun _ => true, clientOk := fun _ => false, writeOk := fun _ => false,
    clientId := fun _ => 0, live := fun _ => false, now := 0 }

/-- An environment in which everything succeeds. -/
def envUp : Env :=
  { fileExists := fun _ => true, clientOk := fun _ => true, writeOk := fun _ => true,
    clientId := fun i => i + 10, live := fun _ => true, now := 7 }

/-! Helper lemmas about the retry loop. -/

/-- The retry loop never modifies the stored config. -/
lemma initLoop_config (env : Env) (cfg : FirebaseConfig) :
    ∀ (l : List Nat) (s : ConnState), ((initLoop env cfg l s).state).config = s.config := by
  intro l
  induction l with
  | nil => intro s; rfl
  | cons i rest ih =>
    intro s
    rw [initLoop]
    cases hc : env.clientOk i <;> cases hw : env.writeOk i <;>
      simp only [Bool.and_self, Bool.true_and, Bool.false_and, if_true, if_false,
        Bool.false_eq_true, reduceIte] <;>
      first
        | rfl
        | (split
           · split <;> rfl
           · exact ih _)

/-- After `initialize(cfg)`, the stored config is `cfg`, on every path. -/
lemma initializeConn_config (env : Env) (cfg : FirebaseConfig) (s : ConnState) :
    ((initializeConn env cfg s).state).config = some cfg := by
  rw [initializeConn]
  split
  · simpa using initLoop_config env cfg (List.range maxAttempts) _
  · split <;> rfl

/-- The retry loop raises only `ConnectionFailure`, never `ConnectionLost`. -/
lemma initLoop_result_ne_lost (env : Env) (cfg : FirebaseConfig) :
    ∀ (l : List Nat) (s : ConnState),
      (initLoop env cfg l s).result ≠ Except.error FbError.connectionLost := by
  intro l
  induction l with
  | nil => intro s h; exact Except.noConfusion h
  | cons i rest ih =>
    intro s
    rw [initLoop]
    cases hc : env.clientOk i <;> cases hw : env.writeOk i <;>
      simp only [Bool.and_self, Bool.true_and, Bool.false_and, if_true, if_false,
        Bool.false_eq_true, reduceIte] <;>
      first
        | (split
           · split <;> simp
           · exact ih _)
        | simp

/-- `initialize` never raises `ConnectionLost`. -/
lemma initializeConn_result_ne_lost (env : Env) (cfg : FirebaseConfig) (s : ConnState) :
    (initializeConn env cfg s).result ≠ Except.error FbError.connectionLost := by
  rw [initializeConn]
  split
  · exact initLoop_result_ne_lost env cfg _ _
  · split <;> simp

/-- C4: when the credentials file does not exist and offline mode is
disabled, `initialize` raises `MissingCredentials` and makes no connection
attempt: the only event emitted is the credentials-error log, so in
particular no write to `system_health/connection_test` occurs. -/
theorem c4_missing_credentials_raises (env : Env) (cfg : FirebaseConfig) (s : ConnState)
    (hfile : env.fileExists cfg.credentials_path = false)
    (hoff : cfg.enable_offline_mode = false) :
    initializeConn env cfg s =
      ⟨[Ev.logCredError], .error .missingCredentials, { s with config := some cfg }⟩ := by
  simp [initializeConn, hfile, hoff]

/-- Witness for C4 at a concrete input: unreachable file, offline mode
disabled. -/
theorem c4_missing_credentials_raises_witness :
    initializeConn envDown cfgStrict ⟨none, none, 0⟩ =
      ⟨[Ev.logCredError], .error .missingCredentials, ⟨none, some cfgStrict, 0⟩⟩ :=
  c4_missing_credentials_raises envDown cfgStrict ⟨none, none, 0⟩ rfl rfl

/-- C5: when the credentials file does not exist and offline mode is
enabled, `initialize` returns `false`, raises no error, and makes no
connection attempt (only the credentials-error and offline-warning logs are
emitted; no write occurs). -/
theorem c5_offline_degrades_gracefully (env : Env) (cfg : FirebaseConfig) (s : ConnState)
    (hfile : env.fileExists cfg.credentials_path = false)
    (hon : cfg.enable_offline_mode = true) :
    initializeConn env cfg s =
      ⟨[Ev.logCredError, Ev.logOfflineWarn], .ok false, { s with config := some cfg }⟩ := by
  simp [initializeConn, hfile, hon]

/-- Witness for C5 at a concrete input: unreachable file, offline mode
enabled. -/
theorem c5_offline_degrades_gracefully_witness :
    initializeConn envDown cfgOffline ⟨none, none, 0⟩ =
      ⟨[Ev.logCredError, Ev.logOfflineWarn], .ok false, ⟨none, some cfgOffline, 0⟩⟩ :=
  c5_offline_degrades_gracefully envDown cfgOffline ⟨none, none, 0⟩ rfl rfl

/-- C8: `ExchangeType` has exactly the five members with canonical string
values "binance", "coinbase", "kraken", "ftx", "bybit"; value lookup after
conversion to the string value is the identity; and every value is one of
the five (no sixth value is constructible). -/
theorem c8_exchange_type_closed_enum :
    (∀ e : ExchangeType, ExchangeType.ofValue e.value = some e) ∧
    (ExchangeType.BINANCE.value = "binance" ∧ ExchangeType.COINBASE.value = "coinbase" ∧
      ExchangeType.KRAKEN.value = "kraken" ∧ ExchangeType.FTX.value = "ftx" ∧
      ExchangeType.BYBIT.value = "bybit") ∧
    (∀ e : ExchangeType,
      e = .BINANCE ∨ e = .COINBASE ∨ e = .KRAKEN ∨ e = .FTX ∨ e = .BYBIT) := by
  refine ⟨fun e => ?_, ⟨rfl, rfl, rfl, rfl, rfl⟩, fun e => ?_⟩
  all_goals cases e <;> decide

/-- C10: `initialize(c)` stores `c` before credential validation, so the
stored config equals `c` afterward on every path, including the error and
`false`-returning ones; consequently, after any `initialize` call that
leaves no client handle with offline mode enabled in `c`, `get_client`
raises `OfflineModeActive` (not `NotInitialized`). -/
theorem c10_config_stored_before_validation :
    (∀ (env : Env) (cfg : FirebaseConfig) (s : ConnState),
      ((initializeConn env cfg s).state).config = some cfg) ∧
    (∀ (env env2 : Env) (cfg : FirebaseConfig) (s : ConnState),
      cfg.enable_offline_mode = true →
      ((initializeConn env cfg s).state).client = none →
      (get_client env2 ((initializeConn env cfg s).state)).result =
        Except.error FbError.offlineModeActive) := by
  refine ⟨initializeConn_config, fun env env2 cfg s hon hcl => ?_⟩
  have hcfg := initializeConn_config env cfg s
  generalize hG : (initializeConn env cfg s).state = s2 at hcl hcfg ⊢
  rcases s2 with ⟨cl, co, n⟩
  simp only at hcl hcfg
  subst hcl
  subst hcfg
  simp [get_client, hon]

/-- Witness for C10 at a concrete input: a failed offline `initialize`
leaves the config stored and a subsequent `get_client` raises
`OfflineModeActive`. -/
theorem c10_config_stored_before_validation_witness :
    (get_client envDown ((initializeConn envDown cfgOffline ⟨none, none, 0⟩).state)).result =
      Except.error FbError.offlineModeActive :=
  c10_config_stored_before_validation.2 envDown envDown cfgOffline ⟨none, none, 0⟩ rfl rfl

/-- C3: with an existing credentials file, offline mode disabled, and every
attempt failing (client not obtained or write not completing), `initialize`
raises `ConnectionFailure` after exactly `maxAttempts = 3` sequential
attempts: the failed-attempt counter grows by 3 and the per-attempt failure
log is emitted exactly once per attempt, with attempt numbers 1, 2, 3. -/
theorem c3_connection_failure_after_three_attempts (env : Env) (cfg : FirebaseConfig)
    (s : ConnState)
    (hfile : env.fileExists cfg.credentials_path = true)
    (hoff : cfg.enable_offline_mode = false)
    (hfail : ∀ i, i < maxAttempts → env.clientOk i = false ∨ env.writeOk i = false) :
    (initializeConn env cfg s).result = Except.error FbError.connectionFailure ∧
    ((initializeConn env cfg s).state).connection_attempts = s.connection_attempts + 3 ∧
    ((initializeConn env cfg s).events).filter Ev.isAttemptErr =
      [Ev.logAttemptError 1, Ev.logAttemptError 2, Ev.logAttemptError 3] := by
  have h0 := hfail 0 (by decide)
  have h1 := hfail 1 (by decide)
  have h2 := hfail 2 (by decide)
  have hr : List.range 3 = [0, 1, 2] := rfl
  cases hc0 : env.clientOk 0 <;> cases hc1 : env.clientOk 1 <;> cases hc2 : env.clientOk 2 <;>
    simp_all [initializeConn, initLoop, maxAttempts, hr, Ev.isAttemptErr]

/-- Witness for C3 at a concrete input: file present, offline disabled,
backend down on every attempt. -/
theorem c3_connection_failure_after_three_attempts_witness :
    (initializeConn envAllFail cfgStrict ⟨none, none, 0⟩).result =
      Except.error FbError.connectionFailure :=
  (c3_connection_failure_after_three_attempts envAllFail cfgStrict ⟨none, none, 0⟩ rfl rfl
    (fun _ _ => Or.inl rfl)).1

/-- C6: when the credentials file exists and the first succeeding attempt
is attempt `k` (0-based, earlier attempts failing), `initialize` returns
`true` immediately on that attempt with no further attempts made: the
failed-attempt counter is 0 afterward, exactly the earlier attempts are
logged as failures (attempt numbers 1..k), and no write carries an attempt
number beyond `k + 1`. -/
theorem c6_success_returns_immediately (env : Env) (cfg : FirebaseConfig) (s : ConnState)
    (k : Nat)
    (hfile : env.fileExists cfg.credentials_path = true)
    (hk : k < maxAttempts)
    (hsucc : env.clientOk k = true ∧ env.writeOk k = true)
    (hmin : ∀ j, j < k → env.clientOk j = false ∨ env.writeOk j = false) :
    (initializeConn env cfg s).result = Except.ok true ∧
    ((initializeConn env cfg s).state).connection_attempts = 0 ∧
    ((initializeConn env cfg s).events).filter Ev.isAttemptErr =
      (List.range k).map (fun j => Ev.logAttemptError (j + 1)) ∧
    ∀ w, Ev.write w ∈ (initializeConn env cfg s).events → w.attemptField ≤ k + 1 := by
  have hr : List.range 3 = [0, 1, 2] := rfl
  have hr1 : List.range 1 = [0] := rfl
  have hr2 : List.range 2 = [0, 1] := rfl
  have hk3 : k < 3 := hk
  interval_cases k
  · simp_all [initializeConn, initLoop, maxAttempts, hr, Ev.isAttemptErr, testWriteFor]
  · have h0 := hmin 0 (by decide)
    cases hc0 : env.clientOk 0 <;>
      simp_all [initializeConn, initLoop, maxAttempts, hr, hr1, Ev.isAttemptErr, testWriteFor]
  · have h0 := hmin 0 (by decide)
    have h1 := hmin 1 (by decide)
    cases hc0 : env.clientOk 0 <;> cases hc1 : env.clientOk 1 <;>
      simp_all [initializeConn, initLoop, maxAttempts, hr, hr2, Ev.isAttemptErr, testWriteFor]

/-- Witness for C6 at a concrete input: everything succeeds on the first
attempt. -/
theorem c6_success_returns_immediately_witness :
    (initializeConn envUp cfgStrict ⟨none, none, 0⟩).result = Except.ok true ∧
    ((initializeConn envUp cfgStrict ⟨none, none, 0⟩).state).connection_attempts = 0 :=
  have h := c6_success_returns_immediately envUp cfgStrict ⟨none, none, 0⟩ 0 rfl (by decide)
    ⟨rfl, rfl⟩ (fun j hj => absurd hj (Nat.not_lt_zero j))
  ⟨h.1, h.2.1⟩

/-- Every write emitted by the retry loop over attempt list `l` is the
connection-test write of some attempt `i ∈ l` whose client was obtained. -/
lemma initLoop_writes_shape (env : Env) (cfg : FirebaseConfig) :
    ∀ (l : List Nat) (s : ConnState) (w : TestWrite),
      Ev.write w ∈ (initLoop env cfg l s).events →
      ∃ i, i ∈ l ∧ env.clientOk i = true ∧ w = testWriteFor env i := by
  intro l
  induction l with
  | nil => intro s w h; simp [initLoop] at h
  | cons i rest ih =>
    intro s w h
    rw [initLoop] at h
    cases hc : env.clientOk i <;> cases hw : env.writeOk i <;>
      simp only [hc, hw, Bool.and_self, Bool.true_and, Bool.false_and, Bool.false_eq_true,
        reduceIte, List.nil_append, List.cons_append] at h
    · split at h
      · split at h <;> simp at h
      · simp at h
        obtain ⟨j, hj, hcj, hwj⟩ := ih _ w h
        exact ⟨j, List.mem_cons_of_mem i hj, hcj, hwj⟩
    · split at h
      · split at h <;> simp at h
      · simp at h
        obtain ⟨j, hj, hcj, hwj⟩ := ih _ w h
        exact ⟨j, List.mem_cons_of_mem i hj, hcj, hwj⟩
    · split at h
      · split at h
        all_goals (simp at h; exact ⟨i, List.mem_cons_self i rest, hc, h⟩)
      · simp at h
        rcases h with h | h
        · exact ⟨i, List.mem_cons_self i rest, hc, h⟩
        · obtain ⟨j, hj, hcj, hwj⟩ := ih _ w h
          exact ⟨j, List.mem_cons_of_mem i hj, hcj, hwj⟩
    · simp at h
      exact ⟨i, List.mem_cons_self i rest, hc, h⟩

/-- C7: every connection-test write performed by `initialize` targets
exactly the document `system_health/connection_test` with fields
`timestamp` = the current UTC instant, `status` = "connected" and `attempt`
= the 1-based number of the attempt that issued it, using merge
semantics. -/
theorem c7_connection_test_write_shape (env : Env) (cfg : FirebaseConfig) (s : ConnState) :
    ∀ w, Ev.write w ∈ (initializeConn env cfg s).events →
      w.collectionPath = "system_health" ∧ w.docPath = "connection_test" ∧
      w.statusField = "connected" ∧ w.tsField = env.now ∧ w.mergeFlag = true ∧
      ∃ i, i < maxAttempts ∧ env.clientOk i = true ∧ w.attemptField = i + 1 := by
  intro w h
  rw [initializeConn] at h
  split at h
  · obtain ⟨i, hi, hc, hw⟩ := initLoop_writes_shape env cfg _ _ w h
    subst hw
    exact ⟨rfl, rfl, rfl, rfl, rfl, i, by simpa using hi, hc, rfl⟩
  · split at h <;> simp at h

/-- Witness for C7 at a concrete input: the write of a first-attempt
success has the specified shape. -/
theorem c7_connection_test_write_shape_witness :
    (testWriteFor envUp 0).collectionPath = "system_health" ∧
    (testWriteFor envUp 0).docPath = "connection_test" ∧
    (testWriteFor envUp 0).statusField = "connected" ∧
    (testWriteFor envUp 0).tsField = envUp.now ∧
    (testWriteFor envUp 0).mergeFlag = true :=
  have h := c7_connection_test_write_shape envUp cfgStrict ⟨none, none, 0⟩
    (testWriteFor envUp 0) (by decide)
  ⟨h.1, h.2.1, h.2.2.1, h.2.2.2.1, h.2.2.2.2.1⟩

/-- On every branch, `get_client` either leaves the state unchanged or
replaces it by the state of a re-initialization with the stored config. -/
lemma get_client_state_eq (env : Env) (s : ConnState) :
    (get_client env s).state = s ∨
    ∃ cfg, s.config = some cfg ∧
      (get_client env s).state = (initializeConn env cfg s).state := by
  rcases s with ⟨cl, co, n⟩
  cases cl with
  | none =>
    cases co with
    | none => exact Or.inl rfl
    | some cfg =>
      cases hb : cfg.enable_offline_mode <;> exact Or.inl (by simp [get_client, hb])
  | some c =>
    cases hl : env.live c with
    | false =>
      cases co with
      | none => exact Or.inl (by simp [get_client, hl])
      | some cfg =>
        right
        refine ⟨cfg, rfl, ?_⟩
        simp only [get_client, hl]
        cases hres : (initializeConn env cfg ⟨some c, some cfg, n⟩).result <;> simp [hres]
    | true => exact Or.inl (by simp [get_client, hl])

/-- `get_client` reports `ConnectionLost` only from a state with a client
handle but no stored config. -/
lemma get_client_lost_shape (env : Env) (s : ConnState)
    (h : (get_client env s).result = Except.error FbError.connectionLost) :
    s.client.isSome = true ∧ s.config = none := by
  rcases s with ⟨cl, co, n⟩
  cases cl with
  | none =>
    cases co with
    | none => simp [get_client] at h
    | some cfg => cases hb : cfg.enable_offline_mode <;> simp [get_client, hb] at h
  | some c =>
    cases hl : env.live c with
    | false =>
      cases co with
      | none => exact ⟨rfl, rfl⟩
      | some cfg =>
        exfalso
        simp only [get_client, hl] at h
        cases hres : (initializeConn env cfg ⟨some c, some cfg, n⟩).result <;>
          simp [hres] at h
        exact initializeConn_result_ne_lost env cfg _ (by rw [hres, h])
    | true => simp [get_client, hl] at h

/-- States of the singleton reachable from the freshly constructed instance
(`_client = None`, `_config = None`, counter 0) by any sequence of
`initialize` and `get_client` calls, under arbitrary environments. -/
inductive Reachable : ConnState → Prop
  | init : Reachable ⟨none, none, 0⟩
  | stepInit (env : Env) (cfg : FirebaseConfig) {s : ConnState} :
      Reachable s → Reachable ((initializeConn env cfg s).state)
  | stepGet (env : Env) {s : ConnState} :
      Reachable s → Reachable ((get_client env s).state)

/-- In every reachable state, a present client handle implies a present
stored config. -/
lemma reachable_invariant {s : ConnState} (h : Reachable s) :
    s.client.isSome = true → s.config.isSome = true := by
  induction h with
  | init => intro h0; simp at h0
  | stepInit env cfg hs ih => intro _; simp [initializeConn_config]
  | stepGet env hs ih =>
    intro hc
    rcases get_client_state_eq env _ with heq | ⟨cfg, hco, heq⟩
    · rw [heq] at hc ⊢; exact ih hc
    · rw [heq]; simp [initializeConn_config]

/-- C9: in every state reachable by any sequence of `initialize` and
`get_client` calls, a non-absent client handle implies a non-absent stored
config (the config is stored before any path that sets the handle);
consequently the `ConnectionLost` branch of `get_client` — failed liveness
with no stored config — is unreachable. -/
theorem c9_client_implies_config (s : ConnState) (h : Reachable s) :
    (s.client.isSome = true → s.config.isSome = true) ∧
    ∀ env : Env, (get_client env s).result ≠ Except.error FbError.connectionLost := by
  refine ⟨reachable_invariant h, fun env hres => ?_⟩
  obtain ⟨hc, hco⟩ := get_client_lost_shape env s hres
  have hcfg := reachable_invariant h hc
  rw [hco] at hcfg
  simp at hcfg

/-- Witness for C9 at a concrete input: the initial state is reachable and
`get_client` on it does not raise `ConnectionLost`. -/
theorem c9_client_implies_config_witness :
    (get_client envDown ⟨none, none, 0⟩).result ≠ Except.error FbError.connectionLost :=
  (c9_client_implies_config ⟨none, none, 0⟩ Reachable.init).2 envDown

/-- C2 counterexample: a state with a dead client handle (id 7) and a
stored offline-mode config whose credentials file is missing.  The liveness
check fails, `get_client` re-invokes the initialization, which returns
`false` leaving the old handle in place, and `get_client` then returns that
very handle — one that has not passed (indeed has just failed) liveness
verification — contradicting the claim that `get_client` only ever returns
a verified-live handle. -/
theorem c2_counterexample :
    (get_client envDown ⟨some 7, some cfgOffline, 0⟩).result = Except.ok (some 7) ∧
    envDown.live 7 = false := by
  exact ⟨rfl, rfl⟩

/-- C2 (amended): when a client handle exists, its liveness check fails and
a stored config is present, `get_client` re-invokes the initialization with
that config and returns whatever handle is then stored, without any further
liveness verification; an error raised by the re-initialization propagates
to the caller. -/
theorem c2_amended_reconnect_unverified (env : Env) (s : ConnState) (c : Nat)
    (cfg : FirebaseConfig) (hc : s.client = some c) (hl : env.live c = false)
    (hco : s.config = some cfg) :
    (get_client env s).state = (initializeConn env cfg s).state ∧
    (get_client env s).result =
      (match (initializeConn env cfg s).result with
        | Except.error e => Except.error e
        | Except.ok _ => Except.ok ((initializeConn env cfg s).state).client) := by
  rcases s with ⟨cl, co, n⟩
  simp only at hc hco
  subst hc
  subst hco
  simp only [get_client, hl]
  cases hres : (initializeConn env cfg ⟨some c, some cfg, n⟩).result <;> simp [hres]

/-- Witness for C2 (amended) at a concrete input. -/
theorem c2_amended_reconnect_unverified_witness :
    (get_client envDown ⟨some 7, some cfgOffline, 0⟩).state =
      (initializeConn envDown cfgOffline ⟨some 7, some cfgOffline, 0⟩).state :=
  (c2_amended_reconnect_unverified envDown ⟨some 7, some cfgOffline, 0⟩ 7 cfgOffline
    rfl rfl rfl).1

/-- The globals after the first acquisition of the connection manager in a
fresh process. -/
def g1 : PyGlobal := (FirebaseConnection_call ⟨none, 0⟩).2

/-- The globals after `initialize(cfgOffline)` is invoked through the first
handle (missing credentials, offline mode: returns `false` and stores the
config). -/
def g2 : PyGlobal := callInitializeConn envDown cfgOffline g1

/-- C1 counterexample: after acquiring the manager and storing a config via
`initialize`, a second evaluation of `FirebaseConnection()` returns the
same instance (same identity) but not with the same internal state: the
stored config observed before the second acquisition is `cfgOffline`,
while after it the stored config is absent (and the failed-attempt counter
reset), because `__init__` re-runs on every evaluation — contradicting the
claim that the state observed through the two acquisitions is identical. -/
theorem c1_counterexample :
    (FirebaseConnection_call g2).1 = (FirebaseConnection_call ⟨none, 0⟩).1 ∧
    observeConfig g2 = some (some cfgOffline) ∧
    observeConfig (FirebaseConnection_call g2).2 = some none ∧
    observeConfig (FirebaseConnection_call g2).2 ≠ observeConfig g2 := by
  refine ⟨rfl, rfl, rfl, ?_⟩
  decide

/-- C1 (amended): repeated acquisition of the connection manager returns
the identical singleton instance — same identity, one shared state, so a
mutation through one handle is observed through any other — and the client
handle survives re-acquisition; but each evaluation of
`FirebaseConnection()` re-runs `__init__`, so the stored config and the
failed-attempt counter are reset to absent and 0 by the acquisition itself
rather than preserved. -/
theorem c1_amended_singleton_reset (g : PyGlobal) (i : Nat) (st : ConnState)
    (h : g.singleton = some (i, st)) :
    (FirebaseConnection_call g).1 = i ∧
    (FirebaseConnection_call g).2.singleton =
      some (i, { client := st.client, config := none, connection_attempts := 0 }) := by
  simp [FirebaseConnection_call, h]

/-- Witness for C1 (amended) at a concrete input. -/
theorem c1_amended_singleton_reset_witness :
    (FirebaseConnection_call g2).1 = 0 :=
  (c1_amended_singleton_reset g2 0 ⟨none, some cfgOffline, 0⟩ rfl).1

end ACTH
